import Mathlib

/-!
Shallow embedding of `src/gfx/main.cpp` of the rgbds `rgbgfx` tool: the
run-scoped error counter `nbErrors` and the control flow of `error`,
`fatal`, `giveUp` and the tail of `main`; the `Palette` data structure
(`addColor`, `indexOf`, `size`, `begin` and `end` iteration); and the option
handlers of `parseArgv` that validate numeric configuration values, together
with the post-parse defaulting of `nbColorsPerPal` in `main`.
-/

/-! ## Error counter and control flow (main.cpp lines 47-90, 770-794) -/

/-- Maximum value of the 64-bit C type `uintmax_t` of the counter `nbErrors`. -/
def UINTMAX_MAX : Nat := 18446744073709551615

/-- Effect of one call to `error(...)` (main.cpp lines 64-75) on `nbErrors`:
the counter is incremented unless it already sits at its maximum. The same
guarded increment is the counter effect of `fatal(...)` (lines 86-87). -/
def errorStep (e : Nat) : Nat :=
  if e ≠ UINTMAX_MAX then e + 1 else e

/-- Effect of `k` successive calls to `error(...)` on `nbErrors`. -/
def errorIter : Nat → Nat → Nat
  | 0, e => e
  | k + 1, e => errorIter k (errorStep e)

/-- Result of running a piece of the program: either control returns to the
caller carrying the updated `nbErrors`, or the process terminates with the
given exit code. -/
inductive ControlFlow where
  | ret (nbErrors : Nat)
  | exit (code : Nat)
  deriving DecidableEq

/-- `error(...)` as a control-flow step: it prints the diagnostic, bumps the
counter, and returns to its caller (it never terminates the process). -/
def errorCall (e : Nat) : ControlFlow := ControlFlow.ret (errorStep e)

/-- `giveUp()` (main.cpp lines 49-52): prints the error count and calls
`exit(1)`; the current counter value is only read for the message. -/
def giveUpCall (_e : Nat) : ControlFlow := ControlFlow.exit 1

/-- `fatal(...)` (main.cpp lines 77-90): prints the diagnostic, applies the
same guarded counter increment as `error`, then calls `giveUp()`. -/
def fatalCall (e : Nat) : ControlFlow := giveUpCall (errorStep e)

/-- Tail of `main` (main.cpp lines 770-794): abort via `giveUp()` if any
error was recorded while parsing options; otherwise run the selected
pipeline (`reverse()`, `process()` or `processPalettes()`, abstracted as a
function `pipeline` on the error counter; `hasWork = false` stands for the
no-input path, which prints a FATAL message and calls `exit(1)`); afterwards
abort via `giveUp()` if the pipeline recorded any error, else return 0 from
`main`, that is, terminate with exit status 0. The `Bool` component records
whether the pipeline ran. -/
def mainTail (e : Nat) (hasWork : Bool) (pipeline : Nat → Nat) : Bool × ControlFlow :=
  if e ≠ 0 then (false, giveUpCall e)
  else if hasWork then
    (true, if pipeline e ≠ 0 then giveUpCall (pipeline e) else ControlFlow.exit 0)
  else (false, ControlFlow.exit 1)

/-! ## The Palette data structure (main.cpp lines 796-835) -/

/-- The `UINT16_MAX` sentinel value marking an empty palette slot. -/
def EMPTY_SLOT : Nat := 65535

/-- Modelled from the spec: `Rgba::transparent` is declared in
`gfx/rgba.hpp`, which is not among the sources; per the spec it is the
packed transparent-color sentinel, distinct from any opaque color and (by
the sentinel-collision invariant) from the empty-slot sentinel. -/
def Rgba.transparent : Nat := 32768

/-- The `Palette` slot array (`colors` member, declared in `gfx/main.hpp`,
a `std::array` of `uint16_t` slots), kept as a list of slot values so that
the statements hold for any capacity. -/
structure Palette where
  colors : List Nat
  deriving DecidableEq

/-- Offset computed by `std::find(first, last, c) - first` over a range of
slots: index of the first occurrence of `c`, or the length of the range
when `c` is absent. -/
def stdFind : List Nat → Nat → Nat
  | [], _ => 0
  | x :: xs, c => if x = c then 0 else stdFind xs c + 1

/-- `Palette::begin()` (main.cpp lines 817-820): `colors.begin() +
options.hasTransparentPixels`, skipping the first slot exactly when it is
reserved for transparency. -/
def Palette.beginIdx (hasT : Bool) : Nat := hasT.toNat

/-- `Palette::end()` (main.cpp lines 821-823): the position of
`std::find(begin(), colors.end(), UINT16_MAX)`, the first empty slot at or
after `begin()`. -/
def Palette.endIdx (p : Palette) (hasT : Bool) : Nat :=
  stdFind (p.colors.drop (Palette.beginIdx hasT)) EMPTY_SLOT + Palette.beginIdx hasT

/-- The slot values visited by iterating a palette from `begin()` to
`end()`. -/
def Palette.iteratedColors (p : Palette) (hasT : Bool) : List Nat :=
  (p.colors.drop (Palette.beginIdx hasT)).take (p.endIdx hasT - Palette.beginIdx hasT)

/-- `Palette::indexOf(color)` (main.cpp lines 811-815): `0` when `color` is
the transparent sentinel, otherwise `std::find(begin(), colors.end(), color)
- begin() + options.hasTransparentPixels`. -/
def Palette.indexOf (p : Palette) (hasT : Bool) (color : Nat) : Nat :=
  if color = Rgba.transparent then 0
  else stdFind (p.colors.drop (Palette.beginIdx hasT)) color + hasT.toNat

/-- `Palette::size()` (main.cpp lines 833-835): `indexOf(UINT16_MAX)`. -/
def Palette.size (p : Palette) (hasT : Bool) : Nat :=
  p.indexOf hasT EMPTY_SLOT

/-- Loop body of `Palette::addColor` (main.cpp lines 796-806): scan slots in
order for `color` or for the first empty slot; running off the end of the
array violates the `assert(i < colors.size())` packing contract and is
modelled as `none`. -/
def addColorAux : List Nat → Nat → Option (List Nat)
  | [], _ => none
  | x :: xs, c =>
    if x = c then some (x :: xs)
    else if x = EMPTY_SLOT then some (c :: xs)
    else (addColorAux xs c).map (fun ys => x :: ys)

/-- `Palette::addColor(color)` on the whole structure. -/
def Palette.addColor (p : Palette) (c : Nat) : Option Palette :=
  (addColorAux p.colors c).map Palette.mk

/-- Well-formedness of a slot array: every slot after the first empty slot
is itself empty. Palettes start with all slots empty and `addColor` fills
the first empty slot, so every palette state the program builds satisfies
this. -/
def gaplessB : List Nat → Bool
  | [] => true
  | x :: xs =>
    if x = EMPTY_SLOT then xs.all (fun y => decide (y = EMPTY_SLOT))
    else gaplessB xs

/-- The occupied slots strictly before the first empty slot of a range, in
order; this is what the spec describes iteration as visiting. -/
def occupiedSlots : List Nat → List Nat
  | [] => []
  | x :: xs => if x = EMPTY_SLOT then [] else x :: occupiedSlots xs

/-- What the spec sentence for `size()` describes, word for word: the number
of occupied (non-sentinel) color slots, excluding the implicit reserved
transparency slot when a transparency slot is present. Compared against
`Palette.size`, which is translated from the source. -/
def specSize (p : Palette) (hasT : Bool) : Nat :=
  ((p.colors.drop hasT.toNat).filter (fun c => decide (c ≠ EMPTY_SLOT))).length

/-! ## Option parsing (parseArgv, main.cpp lines 340-592 and 654-659) -/

/-- One occurrence of a `parseArgv` option relevant to the configuration
claims, carrying the successfully parsed numeric argument or arguments of
that occurrence; `other k` stands for one execution of any remaining option
handler, which writes none of the modelled fields and raises `k`
diagnostics through `error()` (for example malformed argument strings). -/
inductive OptEvent where
  | baseTiles (b0 : Nat) (b1 : Option Nat)
  | nbTiles (n0 : Nat) (n1 : Option Nat)
  | palCount (n : Nat)
  | slice (l t w h : Nat)
  | reverseStride (n : Nat)
  | mirrorTiles
  | uniqueTiles
  | palSize (n : Nat)
  | depth (n : Nat)
  | other (k : Nat)
  deriving DecidableEq

/-- The fields of the global `Options` object read or written by the
modelled handlers (declared in `gfx/main.hpp`). -/
structure GfxOptions where
  baseTileIDs0 : Nat
  baseTileIDs1 : Nat
  maxNbTiles0 : Nat
  maxNbTiles1 : Nat
  nbPalettes : Nat
  sliceLeft : Nat
  sliceTop : Nat
  sliceWidth : Nat
  sliceHeight : Nat
  reversedWidth : Nat
  nbColorsPerPal : Nat
  bitDepth : Nat
  allowDedup : Bool
  allowMirroring : Bool
  deriving DecidableEq

/-- One iteration of the `parseArgv` option loop (main.cpp lines 340-592),
acting on the modelled option fields and on `nbErrors`. Each case is
translated from the corresponding `case` of the `switch`:
`-b` checks each base tile ID with `>= 256` (lines 357-382) and zeroes the
second ID when only one is given; `-N` checks each bank capacity with
`> 256` (lines 457-483); `-n` checks `> 256` and `== 0` (lines 484-494);
`-L` rejects a left coordinate above `INT16_MAX` (stopping before the other
fields are written) and reports zero width or height (lines 411-450);
`-r` reports a zero stride (lines 527-535); `-m` sets `allowMirroring` and
falls through to the `-u` case, which sets `allowDedup` (lines 451-456);
`-s` checks `> 4` and `== 0` (lines 536-546); `-d` forces the bit depth
back to 2 with an error when it is neither 1 nor 2 (lines 402-410). -/
def parseOneOpt (s : GfxOptions × Nat) (ev : OptEvent) : GfxOptions × Nat :=
  match s, ev with
  | (o, e), OptEvent.baseTiles b0 b1 =>
    let e1 := if 256 ≤ b0 then errorStep e else e
    match b1 with
    | none => ({o with baseTileIDs0 := b0, baseTileIDs1 := 0}, e1)
    | some v =>
      ({o with baseTileIDs0 := b0, baseTileIDs1 := v},
        if 256 ≤ v then errorStep e1 else e1)
  | (o, e), OptEvent.nbTiles n0 n1 =>
    let e1 := if 256 < n0 then errorStep e else e
    match n1 with
    | none => ({o with maxNbTiles0 := n0, maxNbTiles1 := 0}, e1)
    | some v =>
      ({o with maxNbTiles0 := n0, maxNbTiles1 := v},
        if 256 < v then errorStep e1 else e1)
  | (o, e), OptEvent.palCount n =>
    ({o with nbPalettes := n},
      if 256 < n then errorStep e else if n = 0 then errorStep e else e)
  | (o, e), OptEvent.slice l t w h =>
    if 32767 < l then ({o with sliceLeft := l}, errorStep e)
    else
      let e1 := if w = 0 then errorStep e else e
      ({o with sliceLeft := l, sliceTop := t, sliceWidth := w, sliceHeight := h},
        if h = 0 then errorStep e1 else e1)
  | (o, e), OptEvent.reverseStride n =>
    ({o with reversedWidth := n}, if n = 0 then errorStep e else e)
  | (o, e), OptEvent.mirrorTiles =>
    ({o with allowMirroring := true, allowDedup := true}, e)
  | (o, e), OptEvent.uniqueTiles =>
    ({o with allowDedup := true}, e)
  | (o, e), OptEvent.palSize n =>
    ({o with nbColorsPerPal := n},
      if 4 < n then errorStep e else if n = 0 then errorStep e else e)
  | (o, e), OptEvent.depth n =>
    if n = 1 ∨ n = 2 then ({o with bitDepth := n}, e)
    else ({o with bitDepth := 2}, errorStep e)
  | (o, e), OptEvent.other k => (o, errorIter k e)

/-- Running the `parseArgv` option loop over a whole sequence of option
occurrences. -/
def parseArgvModel (o : GfxOptions) (e : Nat) (evs : List OptEvent) : GfxOptions × Nat :=
  evs.foldl parseOneOpt (o, e)

/-- The bounds the claim lists for the checked numeric options: base tile
IDs below 256, bank capacities at most 256, palette count between 1 and
256, nonzero slice width and height, nonzero reverse stride. -/
def optEventInRange : OptEvent → Prop
  | OptEvent.baseTiles b0 b1 => b0 < 256 ∧ (∀ v, b1 = some v → v < 256)
  | OptEvent.nbTiles n0 n1 => n0 ≤ 256 ∧ (∀ v, n1 = some v → v ≤ 256)
  | OptEvent.palCount n => 0 < n ∧ n ≤ 256
  | OptEvent.slice _ _ w h => w ≠ 0 ∧ h ≠ 0
  | OptEvent.reverseStride n => n ≠ 0
  | _ => True

/-- The `nbColorsPerPal` defaulting step of `main` (main.cpp lines 654-659):
a zero (unset) value becomes `1u << bitDepth`; a value exceeding
`1u << bitDepth` is reported through `error()`. After `parseArgv`,
`bitDepth` is always 1 or 2, so `1u << bitDepth` is `2 ^ bitDepth`. -/
def mainApplyColorDefaults (o : GfxOptions) (e : Nat) : GfxOptions × Nat :=
  if o.nbColorsPerPal = 0 then ({o with nbColorsPerPal := 2 ^ o.bitDepth}, e)
  else if 2 ^ o.bitDepth < o.nbColorsPerPal then (o, errorStep e)
  else (o, e)

/-- A sample option state with `nbColorsPerPal` unset, used by witnesses. -/
def optsStart : GfxOptions := ⟨0, 0, 256, 0, 8, 0, 0, 160, 144, 1, 0, 2, false, false⟩

/-- A sample option state with `nbColorsPerPal = 3` but `bitDepth = 1`,
used by witnesses. -/
def optsTight : GfxOptions := ⟨0, 0, 256, 0, 8, 0, 0, 160, 144, 1, 3, 1, false, false⟩

/-! ## Helper lemmas about the error counter -/

theorem errorStep_ne_zero (e : Nat) : errorStep e ≠ 0 := by
  unfold errorStep UINTMAX_MAX
  split_ifs <;> omega

theorem le_errorStep (e : Nat) : e ≤ errorStep e := by
  unfold errorStep
  split_ifs <;> omega

theorem errorStep_le_max (e : Nat) (h : e ≤ UINTMAX_MAX) : errorStep e ≤ UINTMAX_MAX := by
  unfold errorStep UINTMAX_MAX at *
  split_ifs <;> omega

theorem le_errorIter (k e : Nat) : e ≤ errorIter k e := by
  induction k generalizing e with
  | zero => simp [errorIter]
  | succ k ih =>
    calc e ≤ errorStep e := le_errorStep e
    _ ≤ errorIter k (errorStep e) := ih (errorStep e)
    _ = errorIter (k + 1) e := rfl

theorem errorIter_le_max (k e : Nat) (h : e ≤ UINTMAX_MAX) :
    errorIter k e ≤ UINTMAX_MAX := by
  induction k generalizing e with
  | zero => simpa [errorIter] using h
  | succ k ih => exact ih (errorStep e) (errorStep_le_max e h)

theorem errorIter_ne_zero (k e : Nat) (h : e ≠ 0) : errorIter k e ≠ 0 := by
  induction k generalizing e with
  | zero => simpa [errorIter] using h
  | succ k ih => exact ih (errorStep e) (errorStep_ne_zero e)

theorem errorIter_eq_zero (k e : Nat) (h : errorIter k e = 0) : e = 0 := by
  by_contra hne
  exact errorIter_ne_zero k e hne h

theorem ite_errorStep_eq_zero {c : Prop} [Decidable c] {e : Nat}
    (h : (if c then errorStep e else e) = 0) : e = 0 ∧ ¬c := by
  split_ifs at h with hc
  · exact absurd h (errorStep_ne_zero e)
  · exact ⟨h, hc⟩

/-! ## Claim C6 -/

/-- C6: every fatal error aborts the run immediately: `fatal` performs the
guarded counter increment and then `giveUp()`, which terminates the process
with the failing exit status 1; it never returns control to its caller, so
no further pipeline processing happens. -/
theorem fatal_always_aborts (e : Nat) :
    fatalCall e = giveUpCall (errorStep e) ∧
    fatalCall e = ControlFlow.exit 1 ∧
    ∀ k, fatalCall e ≠ ControlFlow.ret k := by
  refine ⟨rfl, rfl, fun k h => ?_⟩
  simp [fatalCall, giveUpCall] at h

/-- Witness for C6 at the concrete counter value 0. -/
theorem fatal_always_aborts_witness : fatalCall 0 = ControlFlow.exit 1 :=
  (fatal_always_aborts 0).2.1

/-! ## Claim C10 -/

/-- C10: the run-scoped error counter never wraps around: the guarded
increment of `error()` and `fatal()` fixes the maximum value, the counter
stays representable, is monotonically non-decreasing across any sequence of
`k` error reports, and once nonzero can never return to zero. -/
theorem error_counter_no_wraparound (k e : Nat) :
    errorStep UINTMAX_MAX = UINTMAX_MAX ∧
    e ≤ errorIter k e ∧
    (e ≤ UINTMAX_MAX → errorIter k e ≤ UINTMAX_MAX) ∧
    (e ≠ 0 → errorIter k e ≠ 0) := by
  refine ⟨?_, le_errorIter k e, fun h => errorIter_le_max k e h,
    fun h => errorIter_ne_zero k e h⟩
  unfold errorStep
  exact if_neg (fun h => h rfl)

/-- Witness for C10 at the concrete counter value 1 and three reports. -/
theorem error_counter_no_wraparound_witness :
    errorStep UINTMAX_MAX = UINTMAX_MAX ∧ 1 ≤ errorIter 3 1 ∧
    errorIter 3 1 ≤ UINTMAX_MAX ∧ errorIter 3 1 ≠ 0 :=
  ⟨(error_counter_no_wraparound 3 1).1, (error_counter_no_wraparound 3 1).2.1,
    (error_counter_no_wraparound 3 1).2.2.1 (by decide),
    (error_counter_no_wraparound 3 1).2.2.2 (by decide)⟩

/-! ## Claim C3 -/

/-- C3: reporting a recoverable error through `error()` returns control to
the caller with a counter that is necessarily nonzero; and the tail of
`main` terminates with the success status 0 (the only outcome under which
the produced artifacts stand) exactly when the counter is zero after
parsing, a pipeline ran, and the counter is still zero after it; whenever
the counter is nonzero after parsing, `main` exits with status 1 without
running the pipeline. -/
theorem error_reports_and_main_gates_output (m e : Nat) (hasWork : Bool)
    (pipeline : Nat → Nat) :
    (errorCall m = ControlFlow.ret (errorStep m) ∧ errorStep m ≠ 0) ∧
    ((mainTail e hasWork pipeline).2 = ControlFlow.exit 0 →
      e = 0 ∧ hasWork = true ∧ pipeline 0 = 0) ∧
    (e ≠ 0 → mainTail e hasWork pipeline = (false, ControlFlow.exit 1)) := by
  refine ⟨⟨rfl, errorStep_ne_zero m⟩, ?_, ?_⟩
  · intro h
    unfold mainTail at h
    split_ifs at h with h1 h2 h3
    · simp [giveUpCall] at h
    · simp [giveUpCall] at h
    · have h0 : e = 0 := by omega
      subst h0
      exact ⟨rfl, h2, by omega⟩
    · simp at h
  · intro h
    simp [mainTail, h, giveUpCall]

/-- Witness for C3: an error at count 0 leaves the counter nonzero, and a
run reaching `main` with one recorded error exits with status 1 without
running the pipeline. -/
theorem error_reports_and_main_gates_output_witness :
    errorStep 0 ≠ 0 ∧
    mainTail 1 true (fun n => n) = (false, ControlFlow.exit 1) :=
  ⟨(error_reports_and_main_gates_output 0 1 true (fun n => n)).1.2,
    (error_reports_and_main_gates_output 0 1 true (fun n => n)).2.2 (by decide)⟩

/-! ## Helper lemmas about palette slot scans -/

theorem stdFind_eq_occupied_length (l : List Nat) :
    stdFind l EMPTY_SLOT = (occupiedSlots l).length := by
  induction l with
  | nil => rfl
  | cons x xs ih =>
    by_cases h : x = EMPTY_SLOT <;> simp [stdFind, occupiedSlots, h, ih]

theorem take_stdFind_eq_occupied (l : List Nat) :
    l.take (stdFind l EMPTY_SLOT) = occupiedSlots l := by
  induction l with
  | nil => rfl
  | cons x xs ih =>
    by_cases h : x = EMPTY_SLOT <;> simp [stdFind, occupiedSlots, h, ih]

theorem gaplessB_tail (x : Nat) (xs : List Nat) (hx : x ≠ EMPTY_SLOT)
    (h : gaplessB (x :: xs) = true) : gaplessB xs = true := by
  simpa [gaplessB, hx] using h

theorem addColorAux_of_mem (l : List Nat) (c : Nat) (hg : gaplessB l = true)
    (hc : c ∈ l) : addColorAux l c = some l := by
  induction l with
  | nil => simp at hc
  | cons x xs ih =>
    by_cases hxc : x = c
    · simp [addColorAux, hxc]
    · by_cases hxe : x = EMPTY_SLOT
      · exfalso
        subst hxe
        simp [gaplessB, List.all_eq_true, decide_eq_true_eq] at hg
        rcases List.mem_cons.mp hc with h1 | h1
        · exact hxc h1.symm
        · exact hxc (hg c h1).symm
      · have h1 : c ∈ xs := by
          rcases List.mem_cons.mp hc with h | h
          · exact absurd h.symm hxc
          · exact h
        simp [addColorAux, hxc, hxe, ih (gaplessB_tail x xs hxe hg) h1]

theorem addColorAux_of_not_mem (l : List Nat) (c : Nat) (hc : c ∉ l)
    (he : EMPTY_SLOT ∈ l) :
    addColorAux l c = some (l.set (stdFind l EMPTY_SLOT) c) := by
  induction l with
  | nil => simp at he
  | cons x xs ih =>
    have hxc : ¬x = c := fun h => hc (h ▸ List.mem_cons_self x xs)
    by_cases hxe : x = EMPTY_SLOT
    · subst hxe
      simp [addColorAux, hxc, stdFind]
    · have he1 : EMPTY_SLOT ∈ xs := by
        rcases List.mem_cons.mp he with h | h
        · exact absurd h.symm hxe
        · exact h
      have hc1 : c ∉ xs := fun h => hc (List.mem_cons_of_mem x h)
      simp [addColorAux, hxc, hxe, ih hc1 he1, stdFind, List.set]

theorem addColorAux_of_full (l : List Nat) (c : Nat) (hc : c ∉ l)
    (he : EMPTY_SLOT ∉ l) : addColorAux l c = none := by
  induction l with
  | nil => rfl
  | cons x xs ih =>
    have hxc : ¬x = c := fun h => hc (h ▸ List.mem_cons_self x xs)
    have hxe : ¬x = EMPTY_SLOT := fun h => he (h ▸ List.mem_cons_self x xs)
    have hc1 : c ∉ xs := fun h => hc (List.mem_cons_of_mem x h)
    have he1 : EMPTY_SLOT ∉ xs := fun h => he (List.mem_cons_of_mem x h)
    simp [addColorAux, hxc, hxe, ih hc1 he1]

/-! ## Claim C1 -/

/-- C1: evaluation of `Palette::indexOf` at the failing input of the claim.
Palette slots are `[5, empty, empty, empty]` and no transparency slot is
reserved. Looking up the absent color 7 returns 4, the distance from
`begin()` to `colors.end()` (the full array capacity), not the occupied
count `size() = 1` that the claim and the doc comment above the function
promise as the not-found sentinel. -/
theorem indexOf_notFound_evaluates_to_capacity :
    Palette.indexOf ⟨[5, EMPTY_SLOT, EMPTY_SLOT, EMPTY_SLOT]⟩ false 7 = 4 ∧
    Palette.size ⟨[5, EMPTY_SLOT, EMPTY_SLOT, EMPTY_SLOT]⟩ false = 1 := by
  constructor <;> decide

/-! ## Claim C2 -/

/-- C2 counterexample: for a palette whose reserved slot 0 holds the
transparent color and whose slot 1 holds one opaque color, with a
transparency slot present, the code computes `size() = 2` while the count
the claim describes (occupied slots excluding the reserved transparency
slot) is 1: `size()` includes the reserved slot. -/
theorem size_spec_counterexample :
    Palette.size ⟨[Rgba.transparent, 5, EMPTY_SLOT, EMPTY_SLOT]⟩ true = 2 ∧
    specSize ⟨[Rgba.transparent, 5, EMPTY_SLOT, EMPTY_SLOT]⟩ true = 1 := by
  constructor <;> decide

/-- C2 amended: `size()` returns the number of occupied color slots before
the first empty slot (scanning after the reserved transparency slot), plus
one when a transparency slot is present; that is, it includes the implicit
reserved transparency slot in the count. -/
theorem size_counts_reserved_transparency_slot (p : Palette) (hasT : Bool) :
    p.size hasT = (occupiedSlots (p.colors.drop hasT.toNat)).length + hasT.toNat := by
  unfold Palette.size Palette.indexOf Palette.beginIdx
  rw [if_neg (by decide : ¬(EMPTY_SLOT = Rgba.transparent))]
  rw [stdFind_eq_occupied_length]

/-! ## Claim C4 -/

/-- C4: for a well-formed palette (empty slots only at the tail, which
holds for every palette the program builds), `addColor(c)` leaves the
palette unchanged when `c` already occupies a slot; otherwise it writes `c`
into the first empty slot and leaves every other slot unchanged; and on a
palette that is full of colors distinct from `c` the scan runs past the
array, violating the assert — the caller contract violation, modelled as
`none`. -/
theorem addColor_correct (p : Palette) (c : Nat) (hg : gaplessB p.colors = true) :
    (c ∈ p.colors → p.addColor c = some p) ∧
    (c ∉ p.colors → EMPTY_SLOT ∈ p.colors →
      p.addColor c = some ⟨p.colors.set (stdFind p.colors EMPTY_SLOT) c⟩) ∧
    (c ∉ p.colors → EMPTY_SLOT ∉ p.colors → p.addColor c = none) := by
  refine ⟨fun hc => ?_, fun hc he => ?_, fun hc he => ?_⟩
  · unfold Palette.addColor
    rw [addColorAux_of_mem p.colors c hg hc]
    rfl
  · unfold Palette.addColor
    rw [addColorAux_of_not_mem p.colors c hc he]
    rfl
  · unfold Palette.addColor
    rw [addColorAux_of_full p.colors c hc he]
    rfl

/-- Witness for C4: adding the fresh color 5 to the palette `[3, empty,
empty, empty]` writes it into the first empty slot. -/
theorem addColor_correct_witness :
    Palette.addColor ⟨[3, EMPTY_SLOT, EMPTY_SLOT, EMPTY_SLOT]⟩ 5
      = some ⟨[3, 5, EMPTY_SLOT, EMPTY_SLOT]⟩ :=
  ((addColor_correct ⟨[3, EMPTY_SLOT, EMPTY_SLOT, EMPTY_SLOT]⟩ 5 (by decide)).2.1
    (by decide) (by decide)).trans (by decide)

/-! ## Claim C5 -/

/-- C5: iterating from `begin()` to `end()` visits exactly the occupied
color slots strictly before the first empty slot, after skipping the first
slot exactly when a transparency slot is reserved. -/
theorem iteration_visits_occupied_slots (p : Palette) (hasT : Bool) :
    p.iteratedColors hasT = occupiedSlots (p.colors.drop hasT.toNat) := by
  unfold Palette.iteratedColors Palette.endIdx Palette.beginIdx
  rw [Nat.add_sub_cancel]
  exact take_stdFind_eq_occupied _

/-! ## Helper lemmas about the option loop -/

theorem parseOneOpt_snd_zero (s : GfxOptions × Nat) (ev : OptEvent)
    (h : (parseOneOpt s ev).2 = 0) : s.2 = 0 ∧ optEventInRange ev := by
  obtain ⟨o, e⟩ := s
  cases ev with
  | baseTiles b0 b1 =>
    cases b1 with
    | none =>
      simp only [parseOneOpt] at h
      obtain ⟨he, hb⟩ := ite_errorStep_eq_zero h
      exact ⟨he, by omega, by simp⟩
    | some v =>
      simp only [parseOneOpt] at h
      obtain ⟨h2, hv⟩ := ite_errorStep_eq_zero h
      obtain ⟨he, hb⟩ := ite_errorStep_eq_zero h2
      refine ⟨he, by omega, fun u hu => ?_⟩
      injection hu with hu
      omega
  | nbTiles n0 n1 =>
    cases n1 with
    | none =>
      simp only [parseOneOpt] at h
      obtain ⟨he, hb⟩ := ite_errorStep_eq_zero h
      exact ⟨he, by omega, by simp⟩
    | some v =>
      simp only [parseOneOpt] at h
      obtain ⟨h2, hv⟩ := ite_errorStep_eq_zero h
      obtain ⟨he, hb⟩ := ite_errorStep_eq_zero h2
      refine ⟨he, by omega, fun u hu => ?_⟩
      injection hu with hu
      omega
  | palCount n =>
    simp only [parseOneOpt] at h
    split_ifs at h with h1 h2
    · exact absurd h (errorStep_ne_zero e)
    · exact absurd h (errorStep_ne_zero e)
    · exact ⟨h, by omega, by omega⟩
  | slice l t w hh =>
    simp only [parseOneOpt] at h
    split_ifs at h with hl h1 h2 h3 <;> simp only at h
    · exact absurd h (errorStep_ne_zero e)
    · exact absurd h (errorStep_ne_zero (errorStep e))
    · exact absurd h (errorStep_ne_zero e)
    · exact absurd h (errorStep_ne_zero e)
    · exact ⟨h, h3, h1⟩
  | reverseStride n =>
    simp only [parseOneOpt] at h
    obtain ⟨he, hn⟩ := ite_errorStep_eq_zero h
    exact ⟨he, hn⟩
  | mirrorTiles => exact ⟨h, trivial⟩
  | uniqueTiles => exact ⟨h, trivial⟩
  | palSize n =>
    simp only [parseOneOpt] at h
    split_ifs at h with h1 h2
    · exact absurd h (errorStep_ne_zero e)
    · exact absurd h (errorStep_ne_zero e)
    · exact ⟨h, trivial⟩
  | depth n =>
    simp only [parseOneOpt] at h
    split_ifs at h with h1
    · simp only at h
      exact ⟨h, trivial⟩
    · simp only at h
      exact absurd h (errorStep_ne_zero e)
  | other k =>
    simp only [parseOneOpt] at h
    exact ⟨errorIter_eq_zero k e h, trivial⟩

theorem parse_fold_zero (evs : List OptEvent) : ∀ s : GfxOptions × Nat,
    (evs.foldl parseOneOpt s).2 = 0 →
    s.2 = 0 ∧ ∀ ev ∈ evs, optEventInRange ev := by
  induction evs with
  | nil =>
    intro s h
    exact ⟨h, by simp⟩
  | cons ev evs ih =>
    intro s h
    rw [List.foldl_cons] at h
    obtain ⟨h1, h2⟩ := ih (parseOneOpt s ev) h
    obtain ⟨h3, h4⟩ := parseOneOpt_snd_zero s ev h1
    refine ⟨h3, fun x hx => ?_⟩
    rcases List.mem_cons.mp hx with hx | hx
    · exact hx ▸ h4
    · exact h2 x hx

theorem parseOneOpt_flags (s : GfxOptions × Nat) (ev : OptEvent)
    (h : s.1.allowMirroring = true → s.1.allowDedup = true) :
    (parseOneOpt s ev).1.allowMirroring = true →
    (parseOneOpt s ev).1.allowDedup = true := by
  obtain ⟨o, e⟩ := s
  cases ev with
  | baseTiles b0 b1 => cases b1 <;> simpa [parseOneOpt] using h
  | nbTiles n0 n1 => cases n1 <;> simpa [parseOneOpt] using h
  | palCount n => simpa [parseOneOpt] using h
  | slice l t w hh =>
    simp only [parseOneOpt]
    split_ifs <;> simpa using h
  | reverseStride n => simpa [parseOneOpt] using h
  | mirrorTiles => simp [parseOneOpt]
  | uniqueTiles => simp [parseOneOpt]
  | palSize n => simpa [parseOneOpt] using h
  | depth n =>
    simp only [parseOneOpt]
    split_ifs <;> simpa using h
  | other k => simpa [parseOneOpt] using h

theorem parse_fold_flags (evs : List OptEvent) : ∀ s : GfxOptions × Nat,
    (s.1.allowMirroring = true → s.1.allowDedup = true) →
    ((evs.foldl parseOneOpt s).1.allowMirroring = true →
      (evs.foldl parseOneOpt s).1.allowDedup = true) := by
  induction evs with
  | nil => intro s h; simpa using h
  | cons ev evs ih =>
    intro s h
    rw [List.foldl_cons]
    exact ih (parseOneOpt s ev) (parseOneOpt_flags s ev h)

/-! ## Claim C7 -/

/-- C7: after option parsing, `main` replaces an unsupplied (zero)
`nbColorsPerPal` by the default `2 ^ bitDepth`; and when the supplied value
exceeds `2 ^ bitDepth` it reports a recoverable error, leaving the counter
nonzero. -/
theorem colors_per_palette_default_and_bound (o : GfxOptions) (e : Nat) :
    (o.nbColorsPerPal = 0 →
      mainApplyColorDefaults o e = ({o with nbColorsPerPal := 2 ^ o.bitDepth}, e)) ∧
    (2 ^ o.bitDepth < o.nbColorsPerPal →
      mainApplyColorDefaults o e = (o, errorStep e) ∧ errorStep e ≠ 0) := by
  constructor
  · intro h
    unfold mainApplyColorDefaults
    rw [if_pos h]
  · intro h
    have h1 : 0 < 2 ^ o.bitDepth := by positivity
    refine ⟨?_, errorStep_ne_zero e⟩
    unfold mainApplyColorDefaults
    rw [if_neg (by omega), if_pos h]

/-- Witness for C7: with bit depth 2 and no `-s` value the default becomes
4; with bit depth 1 and a supplied palette size of 3 an error is raised. -/
theorem colors_per_palette_default_and_bound_witness :
    mainApplyColorDefaults optsStart 0
      = ({optsStart with nbColorsPerPal := 2 ^ optsStart.bitDepth}, 0) ∧
    mainApplyColorDefaults optsTight 0 = (optsTight, errorStep 0) ∧
    errorStep 0 ≠ 0 :=
  ⟨(colors_per_palette_default_and_bound optsStart 0).1 (by decide),
    (colors_per_palette_default_and_bound optsTight 0).2 (by decide)⟩

/-! ## Claim C8 -/

/-- C8: `parseArgv` reports a recoverable error for every out-of-range
numeric configuration value (base tile ID of 256 or more, bank capacity
above 256, palette count above 256 or equal to 0, zero slice width or
height, zero reverse stride), so that whenever an option sequence is parsed
and the run ends with an error count of zero, the counter started at zero
and every parsed occurrence of those options was within its bounds. -/
theorem parse_zero_errors_implies_in_range (o : GfxOptions) (e : Nat)
    (evs : List OptEvent) (h : (parseArgvModel o e evs).2 = 0) :
    e = 0 ∧ ∀ ev ∈ evs, optEventInRange ev :=
  parse_fold_zero evs (o, e) h

/-- Witness for C8 on a concrete in-range option sequence. -/
theorem parse_zero_errors_implies_in_range_witness :
    (0 : Nat) = 0 ∧
    ∀ ev ∈ [OptEvent.palCount 8, OptEvent.reverseStride 3], optEventInRange ev :=
  parse_zero_errors_implies_in_range optsStart 0
    [OptEvent.palCount 8, OptEvent.reverseStride 3] (by decide)

/-! ## Claim C9 -/

/-- C9: the `-m` handler sets `allowMirroring` and falls through to set
`allowDedup`, and no other handler clears either flag, so across any parsed
option sequence the configuration invariant that mirroring implies
deduplication is preserved from the initial state. -/
theorem mirroring_implies_dedup (o : GfxOptions) (e : Nat) (evs : List OptEvent)
    (h : o.allowMirroring = true → o.allowDedup = true) :
    (parseArgvModel o e evs).1.allowMirroring = true →
    (parseArgvModel o e evs).1.allowDedup = true :=
  parse_fold_flags evs (o, e) h

/-- Witness for C9: a run that passes `-m` ends with deduplication
enabled. -/
theorem mirroring_implies_dedup_witness :
    (parseArgvModel optsStart 0 [OptEvent.mirrorTiles]).1.allowDedup = true :=
  mirroring_implies_dedup optsStart 0 [OptEvent.mirrorTiles]
    (by decide) (by decide)
